import Mathlib

/-!
# The TAP test interface (engine/tap.cpp)

A shallow embedding of `tap_to_result`, `engine::tap_interface::compute_result`
and `engine::tap_interface::exec_test` together with the data they work on, and
the properties of the precedence table and of the invocation they implement.

Calls that can end without a value (a failed `PRE` contract check, an
exception that leaves the function) return `Except fault _`; a value is
`Except.ok`.
-/

namespace Kyua

/-! ## Data model -/

/-- Modelled from the spec: `engine::load_error` (engine/exceptions.hpp) is not
among the sources.  It is the parse error of the spec, which carries the
diagnostic text of the parser; `what` is that text, read by `e.what()`. -/
structure load_error where
  what : String
  deriving DecidableEq, Repr

/-- Ways in which a call ends without returning a value. -/
inductive fault where
  /-- A `PRE(...)` contract check of an accessor did not hold. -/
  | precondition_violated
  /-- An `engine::load_error` was thrown. -/
  | thrown_load_error (e : load_error)
  /-- Any exception that is not an `engine::load_error`. -/
  | thrown_other
  deriving DecidableEq, Repr

/-- Modelled from the spec: `process::status` (utils/process/status.hpp) is not
among the sources.  The spec describes it as a tagged variant, exited with a
code or signaled with a signal number; both numbers are C `int`s. -/
inductive status where
  | exited_with (code : Int)
  | signaled_with (signal : Int)
  deriving DecidableEq, Repr

/-- Accessor `status::exited()`. -/
def status.exited : status → Bool
  | .exited_with _ => true
  | .signaled_with _ => false

/-- Accessor `status::signaled()`. -/
def status.signaled : status → Bool
  | .exited_with _ => false
  | .signaled_with _ => true

/-- Accessor `status::exitstatus()`, defined only on a status that exited. -/
def status.exitstatus : status → Except fault Int
  | .exited_with code => .ok code
  | .signaled_with _ => .error .precondition_violated

/-- Accessor `status::termsig()`, defined only on a status that was signaled. -/
def status.termsig : status → Except fault Int
  | .exited_with _ => .error .precondition_violated
  | .signaled_with signal => .ok signal

/-- The constant `EXIT_SUCCESS` of `<cstdlib>`. -/
def EXIT_SUCCESS : Int := 0

/-- Modelled from the spec: the plan type of engine/tap_parser.hpp is not among
the sources.  The spec gives a plan as either a declared total or the
all-skipped directive with its reason. -/
inductive tap_plan where
  | declared (total : Nat)
  | all_skipped (reason : String)
  deriving DecidableEq, Repr

/-- The test `plan == engine::all_skipped_plan`. -/
def tap_plan.is_all_skipped : tap_plan → Bool
  | .declared _ => false
  | .all_skipped _ => true

/-- Modelled from the spec: `engine::tap_summary` (engine/tap_parser.hpp) is not
among the sources.  The spec lists its fields as independent: the bail-out
flag, the plan, and the two counters of report lines, integers that are at
least zero. -/
structure tap_summary where
  bailed_out : Bool
  plan : tap_plan
  ok_count : Nat
  not_ok_count : Nat
  deriving DecidableEq, Repr

/-- Accessor `tap_summary::all_skipped_reason()`: the reason of an all-skipped
plan; a plan with a declared total has none. -/
def tap_summary.all_skipped_reason (summary : tap_summary) : Except fault String :=
  match summary.plan with
  | .all_skipped reason => .ok reason
  | .declared _ => .error .precondition_violated

/-- Modelled from the spec: the kind tags of model/test_result.hpp, which is
not among the sources, under the names tap.cpp uses for them. -/
inductive test_result_type where
  | test_result_broken
  | test_result_failed
  | test_result_passed
  | test_result_skipped
  deriving DecidableEq, Repr

/-- Modelled from the spec: `model::test_result` (model/test_result.hpp) is not
among the sources.  A result is a kind tag with an optional reason; the
one-argument constructor call leaves the reason out. -/
structure test_result where
  type : test_result_type
  reason : Option String
  deriving DecidableEq, Repr

/-- Modelled from the spec: `fs::path` (utils/fs/path.hpp) is not among the
sources; a path is held as its text. -/
structure fs_path where
  str : String
  deriving DecidableEq, Repr

/-- Modelled from the spec: the formatter `F` (utils/format/macros.hpp) is not
among the sources.  A `%s` that receives a C `int` is replaced by its decimal
digits, with a leading minus sign below zero. -/
def format_int (n : Int) : String := toString n

/-- Modelled from the spec: the formatter `F` again; a `%s` that receives a
`std::size_t` is replaced by its decimal digits. -/
def format_size (n : Nat) : String := toString n

/-- The largest value of a `std::size_t`, `SIZE_MAX` of `<cstdint>`; the type is
64 bits wide on the platforms the program is built for. -/
def SIZE_MAX : Nat := 2 ^ 64 - 1

/-- Addition of two `std::size_t` values: the sum modulo `SIZE_MAX + 1`. -/
def size_t_add (a b : Nat) : Nat := (a + b) % (SIZE_MAX + 1)

/-! ## engine/tap.cpp -/

/-- Function `tap_to_result` (tap.cpp, lines 63-91).  The two calls of
`status.exitstatus()` are kept, each one a contract-checked read.  `total` is a
`std::size_t`, so the sum of the two counters wraps around past `SIZE_MAX`. -/
def tap_to_result (summary : tap_summary) (st : status) : Except fault test_result :=
  if summary.bailed_out then
    .ok ⟨.test_result_failed, some "Bailed out"⟩
  else if summary.plan.is_all_skipped then do
    let reason ← summary.all_skipped_reason
    .ok ⟨.test_result_skipped, some reason⟩
  else if summary.not_ok_count = 0 then do
    let code ← st.exitstatus
    if code = EXIT_SUCCESS then
      .ok ⟨.test_result_passed, none⟩
    else do
      let code ← st.exitstatus
      .ok ⟨.test_result_broken,
        some ("Dubious test program: reported all tests as passed " ++
          "but returned exit code " ++ format_int code)⟩
  else
    let total := size_t_add summary.ok_count summary.not_ok_count
    .ok ⟨.test_result_failed,
      some (format_size summary.not_ok_count ++ " of " ++ format_size total ++
        " tests failed")⟩

/-- Method `engine::tap_interface::compute_result` (tap.cpp, lines 138-164).
`parse_tap_output` (engine/tap_parser.cpp, not among the sources) is a
parameter: its value at `stdout_path` is what the parser makes of the captured
stdout, a summary, a thrown `load_error`, or some other fault.  Only a
`load_error` is caught. -/
def compute_result (parse_tap_output : fs_path → Except fault tap_summary)
    (st : Option status) (_control_directory stdout_path _stderr_path : fs_path) :
    Except fault test_result :=
  match st with
  | none => .ok ⟨.test_result_broken, some "Test case timed out"⟩
  | some s =>
    if s.signaled then do
      let signal ← s.termsig
      .ok ⟨.test_result_broken, some ("Received signal " ++ format_int signal)⟩
    else
      match parse_tap_output stdout_path with
      | .ok summary => tap_to_result summary s
      | .error (.thrown_load_error e) =>
        .ok ⟨.test_result_broken,
          some ("TAP test program yielded invalid data: " ++ e.what)⟩
      | .error other => .error other

/-- Modelled from the spec: `model::test_program` (model/test_program.hpp) is
not among the sources.  The spec has it identify an executable by its absolute
path; tap.cpp reads nothing else of it. -/
structure test_program where
  absolute_path : fs_path
  deriving DecidableEq, Repr

/-- The environment of a process: the value bound to a variable name, when
one is. -/
abbrev environment := String → Option String

/-- Modelled from the spec: `utils::setenv` (utils/env.cpp) is not among the
sources.  It binds `name` to `val` in the environment of the process, in place
of an earlier binding of `name`, and leaves every other name as it was. -/
def setenv (name val : String) (env : environment) : environment :=
  fun n => if n = name then some val else env n

/-- The subprocess in which `exec_test` runs: its environment, and the call of
`process::exec` it has made, as the program and the argument vector, when it
has made one. -/
structure process_state where
  env : environment
  exec_call : Option (fs_path × List String)

/-- Modelled from the spec: `process::exec` (utils/process/operations.cpp) is
not among the sources.  It replaces the image of the process with `program`
run on `args`, and does not come back. -/
def process.exec (program : fs_path) (args : List String) (p : process_state) :
    process_state :=
  { p with exec_call := some (program, args) }

/-- How a run of `exec_test` ends: the state it reached, and the fault that
stopped it, when one did. -/
structure exec_end where
  state : process_state
  stopped_by : Option fault

/-- The loop of `exec_test` (tap.cpp, lines 117-120) over the entries of
`vars`, a `std::map` given as the list of its entries in the order of
iteration: each entry sets the variable named "TEST_ENV_" followed by its
key. -/
def exec_test_loop : List (String × String) → environment → environment
  | [], env => env
  | entry :: rest, env =>
    exec_test_loop rest (setenv ("TEST_ENV_" ++ entry.1) entry.2 env)

/-- Method `engine::tap_interface::exec_test` (tap.cpp, lines 108-124).
Modelled from the spec: the macro `PRE` (utils/sanity.hpp) is not among the
sources; a check that does not hold stops the call there, as a precondition
failure. -/
def exec_test (program : test_program) (test_case_name : String)
    (vars : List (String × String)) (_control_directory : fs_path)
    (p : process_state) : exec_end :=
  if test_case_name ≠ "main" then
    ⟨p, some .precondition_violated⟩
  else
    let injected : process_state := { p with env := exec_test_loop vars p.env }
    let args : List String := []
    ⟨process.exec program.absolute_path args injected, none⟩

/-! ## Rendering of numbers -/

/-- The rendering of an `int` is its decimal numeral, signed below zero. -/
theorem format_int_samples :
    format_int 0 = "0" ∧ format_int 1 = "1" ∧ format_int 15 = "15" ∧
      format_int 255 = "255" ∧ format_int (-1) = "-1" := by
  refine ⟨rfl, rfl, rfl, rfl, rfl⟩

/-- The rendering of a `std::size_t` is its decimal numeral. -/
theorem format_size_samples :
    format_size 0 = "0" ∧ format_size 7 = "7" ∧ format_size 10 = "10" ∧
      format_size 1234 = "1234" := by
  refine ⟨rfl, rfl, rfl, rfl⟩

/-! ## compute_result: timeout, signal, invalid data -/

/-- C1: whatever the parser, the control directory and the stdout and stderr
paths are, `compute_result` on an absent status (a timeout) returns the broken
result with reason "Test case timed out".  The parser is arbitrary, also one
that fails or throws at every path, so its outcome has no part in the result. -/
theorem compute_result_timeout (parse_tap_output : fs_path → Except fault tap_summary)
    (control_directory stdout_path stderr_path : fs_path) :
    compute_result parse_tap_output none control_directory stdout_path stderr_path =
      .ok ⟨.test_result_broken, some "Test case timed out"⟩ := rfl

/-- C2: for every signal number `n` and every parser outcome, `compute_result`
on the status signaled(n) returns the broken result with reason
"Received signal " followed by the decimal rendering of `n`. -/
theorem compute_result_signaled (parse_tap_output : fs_path → Except fault tap_summary)
    (n : Int) (control_directory stdout_path stderr_path : fs_path) :
    compute_result parse_tap_output (some (.signaled_with n)) control_directory
        stdout_path stderr_path =
      .ok ⟨.test_result_broken, some ("Received signal " ++ format_int n)⟩ := rfl

/-- C3: for every exit code `c`, zero included, when parsing the stdout file
throws a `load_error` whose text is `d`, `compute_result` on exited(c) does
not end with that error: it returns the broken result with reason
"TAP test program yielded invalid data: " followed by `d`. -/
theorem compute_result_load_error (parse_tap_output : fs_path → Except fault tap_summary)
    (c : Int) (d : String) (control_directory stdout_path stderr_path : fs_path)
    (h : parse_tap_output stdout_path = .error (.thrown_load_error ⟨d⟩)) :
    compute_result parse_tap_output (some (.exited_with c)) control_directory
        stdout_path stderr_path =
      .ok ⟨.test_result_broken, some ("TAP test program yielded invalid data: " ++ d)⟩ := by
  simp [compute_result, status.signaled, h]

/-- Instance of C3: a parser that finds no plan, exit code 0. -/
theorem compute_result_load_error_witness :
    compute_result (fun _ => .error (.thrown_load_error ⟨"No plan found in TAP output"⟩))
        (some (.exited_with 0)) ⟨"/work/control"⟩ ⟨"/work/stdout.txt"⟩ ⟨"/work/stderr.txt"⟩ =
      .ok ⟨.test_result_broken,
        some "TAP test program yielded invalid data: No plan found in TAP output"⟩ :=
  compute_result_load_error (fun _ => .error (.thrown_load_error ⟨"No plan found in TAP output"⟩))
    0 "No plan found in TAP output" ⟨"/work/control"⟩ ⟨"/work/stdout.txt"⟩ ⟨"/work/stderr.txt"⟩ rfl

/-! ## tap_to_result: the precedence table -/

/-- C4: a summary with `bailed_out = true` gives the failed result with reason
"Bailed out", for every plan, every pair of counters and every exit code. -/
theorem tap_to_result_bailed_out (summary : tap_summary) (c : Int)
    (h : summary.bailed_out = true) :
    tap_to_result summary (.exited_with c) =
      .ok ⟨.test_result_failed, some "Bailed out"⟩ := by
  simp [tap_to_result, h]

/-- Instance of C4: bailed out under an all-skipped plan, no failure counted,
exit code 0. -/
theorem tap_to_result_bailed_out_witness :
    tap_to_result ⟨true, .all_skipped "not supported", 3, 0⟩ (.exited_with 0) =
      .ok ⟨.test_result_failed, some "Bailed out"⟩ :=
  tap_to_result_bailed_out ⟨true, .all_skipped "not supported", 3, 0⟩ 0 rfl

/-- C5, as stated, fails: a summary with an all-skipped plan that is also
bailed out gives failed "Bailed out", not skipped with the declared reason. -/
theorem tap_to_result_all_skipped_bailed_out :
    tap_to_result ⟨true, .all_skipped "no tests to run", 0, 0⟩ (.exited_with 0) =
        .ok ⟨.test_result_failed, some "Bailed out"⟩ ∧
      ¬ ∃ res, tap_to_result ⟨true, .all_skipped "no tests to run", 0, 0⟩ (.exited_with 0) =
          .ok res ∧
        res.type = .test_result_skipped ∧ res.reason = some "no tests to run" := by
  refine ⟨rfl, ?_⟩
  rintro ⟨res, h, ht, -⟩
  cases h
  cases ht

/-- C5, amended: for every summary that is not bailed out and whose plan is
all-skipped with reason `r`, and every exit code, the result is of kind skipped
and its reason is `r`, whatever the counters of report lines hold. -/
theorem tap_to_result_all_skipped (summary : tap_summary) (r : String) (c : Int)
    (hb : summary.bailed_out = false) (hp : summary.plan = .all_skipped r) :
    ∃ res, tap_to_result summary (.exited_with c) = .ok res ∧
      res.type = .test_result_skipped ∧ res.reason = some r := by
  refine ⟨⟨.test_result_skipped, some r⟩, ?_, rfl, rfl⟩
  simp [tap_to_result, hb, hp, tap_plan.is_all_skipped, tap_summary.all_skipped_reason,
    bind, Except.bind]

/-- Instance of C5 amended: an all-skipped plan with stray report lines. -/
theorem tap_to_result_all_skipped_witness :
    ∃ res, tap_to_result ⟨false, .all_skipped "no tests to run", 4, 2⟩ (.exited_with 0) =
        .ok res ∧
      res.type = .test_result_skipped ∧ res.reason = some "no tests to run" :=
  tap_to_result_all_skipped ⟨false, .all_skipped "no tests to run", 4, 2⟩
    "no tests to run" 0 rfl rfl

/-- C6: the summary that is not bailed out and has the all-skipped plan with
reason `r` gives the skipped result with reason `r`, for all values of
`ok_count` and `not_ok_count` and every exit code. -/
theorem tap_to_result_skipped_first_match (r : String) (ok_count not_ok_count : Nat)
    (c : Int) :
    tap_to_result ⟨false, .all_skipped r, ok_count, not_ok_count⟩ (.exited_with c) =
      .ok ⟨.test_result_skipped, some r⟩ := rfl

/-- C7: when `tap_to_result` returns a result of kind passed, the summary has
`not_ok_count = 0` and the exit code is `EXIT_SUCCESS`; and `compute_result`
returns no result of kind passed on a timeout, on a signaled status, when
parsing fails, or on an exit code other than `EXIT_SUCCESS`. -/
theorem passed_requires_clean_exit (parse_tap_output : fs_path → Except fault tap_summary)
    (st : Option status) (control_directory stdout_path stderr_path : fs_path)
    (summary : tap_summary) (c : Int) :
    (∀ res, tap_to_result summary (.exited_with c) = .ok res →
        res.type = .test_result_passed →
        summary.not_ok_count = 0 ∧ c = EXIT_SUCCESS) ∧
      (st = none ∨ (∃ n, st = some (.signaled_with n)) ∨
          (∃ k f, st = some (.exited_with k) ∧ parse_tap_output stdout_path = .error f) ∨
          (∃ k, st = some (.exited_with k) ∧ k ≠ EXIT_SUCCESS) →
        ∀ res, compute_result parse_tap_output st control_directory stdout_path
            stderr_path = .ok res →
          res.type ≠ .test_result_passed) := by
  have key : ∀ (s : tap_summary) (k : Int) (res : test_result),
      tap_to_result s (.exited_with k) = .ok res → res.type = .test_result_passed →
      s.not_ok_count = 0 ∧ k = EXIT_SUCCESS := by
    intro s k res h hp
    unfold tap_to_result at h
    split_ifs at h with h1 h2 h3
    · cases h; cases hp
    · cases hr : s.all_skipped_reason with
      | error e => simp [hr, bind, Except.bind] at h
      | ok r =>
        simp [hr, bind, Except.bind] at h
        subst h
        cases hp
    · simp only [status.exitstatus, bind, Except.bind] at h
      split_ifs at h with h4
      · exact ⟨h3, h4⟩
      · cases h; cases hp
    · cases h; cases hp
  refine ⟨key summary c, ?_⟩
  rintro (rfl | ⟨n, rfl⟩ | ⟨k, f, rfl, hf⟩ | ⟨k, rfl, hk⟩) res h hp
  · cases h; cases hp
  · cases h; cases hp
  · simp only [compute_result, status.signaled, hf] at h
    cases f with
    | precondition_violated => simp at h
    | thrown_load_error e => simp at h; subst h; cases hp
    | thrown_other => simp at h
  · simp only [compute_result, status.signaled] at h
    cases hq : parse_tap_output stdout_path with
    | ok s =>
      rw [hq] at h
      exact hk (key s k res h hp).2
    | error f =>
      rw [hq] at h
      cases f with
      | precondition_violated => simp at h
      | thrown_load_error e => simp at h; subst h; cases hp
      | thrown_other => simp at h

/-- Instance of C7: a plan of two tests, both ok, exit code 0 is a passed
result and meets the two conditions; a timeout is not passed. -/
theorem passed_requires_clean_exit_witness :
    tap_to_result ⟨false, .declared 2, 2, 0⟩ (.exited_with 0) =
        .ok ⟨.test_result_passed, none⟩ ∧
      ((⟨false, .declared 2, 2, 0⟩ : tap_summary).not_ok_count = 0 ∧
        (0 : Int) = EXIT_SUCCESS) ∧
      ∀ res, compute_result (fun _ => .ok ⟨false, .declared 2, 2, 0⟩) none
          ⟨"/work/control"⟩ ⟨"/work/stdout.txt"⟩ ⟨"/work/stderr.txt"⟩ = .ok res →
        res.type ≠ .test_result_passed :=
  ⟨rfl,
    (passed_requires_clean_exit (fun _ => .ok ⟨false, .declared 2, 2, 0⟩) none
      ⟨"/work/control"⟩ ⟨"/work/stdout.txt"⟩ ⟨"/work/stderr.txt"⟩
      ⟨false, .declared 2, 2, 0⟩ 0).1 ⟨.test_result_passed, none⟩ rfl rfl,
    (passed_requires_clean_exit (fun _ => .ok ⟨false, .declared 2, 2, 0⟩) none
      ⟨"/work/control"⟩ ⟨"/work/stdout.txt"⟩ ⟨"/work/stderr.txt"⟩
      ⟨false, .declared 2, 2, 0⟩ 0).2 (Or.inl rfl)⟩

/-- C8: a summary that is not bailed out, whose plan is not all-skipped and
whose `not_ok_count` is 0 (with any `ok_count`) gives, on exit code
`EXIT_SUCCESS`, the passed result, which has no reason. -/
theorem tap_to_result_passed (summary : tap_summary) (c : Int)
    (hb : summary.bailed_out = false) (hp : summary.plan.is_all_skipped = false)
    (hn : summary.not_ok_count = 0) (hc : c = EXIT_SUCCESS) :
    tap_to_result summary (.exited_with c) = .ok ⟨.test_result_passed, none⟩ := by
  simp [tap_to_result, hb, hp, hn, hc, status.exitstatus, bind, Except.bind]

/-- Instance of C8: a declared plan, no report line counted at all, exit
code 0. -/
theorem tap_to_result_passed_witness :
    tap_to_result ⟨false, .declared 3, 0, 0⟩ (.exited_with 0) =
      .ok ⟨.test_result_passed, none⟩ :=
  tap_to_result_passed ⟨false, .declared 3, 0, 0⟩ 0 rfl rfl rfl rfl

/-- C9: a summary that is not bailed out, whose plan is not all-skipped and
whose `not_ok_count` is 0 gives, on every exit code `c` other than
`EXIT_SUCCESS`, the broken result with reason "Dubious test program: reported
all tests as passed but returned exit code " followed by the decimal rendering
of `c`. -/
theorem tap_to_result_dubious (summary : tap_summary) (c : Int)
    (hb : summary.bailed_out = false) (hp : summary.plan.is_all_skipped = false)
    (hn : summary.not_ok_count = 0) (hc : c ≠ EXIT_SUCCESS) :
    tap_to_result summary (.exited_with c) =
      .ok ⟨.test_result_broken,
        some ("Dubious test program: reported all tests as passed but returned exit code "
          ++ format_int c)⟩ := by
  simp [tap_to_result, hb, hp, hn, hc, status.exitstatus, bind, Except.bind]

/-- Instance of C9: a plan of two tests, both ok, exit code 1. -/
theorem tap_to_result_dubious_witness :
    tap_to_result ⟨false, .declared 2, 2, 0⟩ (.exited_with 1) =
      .ok ⟨.test_result_broken,
        some "Dubious test program: reported all tests as passed but returned exit code 1"⟩ :=
  tap_to_result_dubious ⟨false, .declared 2, 2, 0⟩ 1 rfl rfl rfl (by decide)

/-- C10, as stated, fails: `total` is a `std::size_t`, and with
`ok_count = SIZE_MAX` and `not_ok_count = 1` the sum wraps around to 0, so the
reason is "1 of 0 tests failed" and not "1 of 18446744073709551616 tests
failed". -/
theorem tap_to_result_failed_count_wraps :
    tap_to_result ⟨false, .declared 2, 18446744073709551615, 1⟩ (.exited_with 1) =
        .ok ⟨.test_result_failed, some "1 of 0 tests failed"⟩ ∧
      tap_to_result ⟨false, .declared 2, 18446744073709551615, 1⟩ (.exited_with 1) ≠
        .ok ⟨.test_result_failed,
          some (format_size 1 ++ " of " ++ format_size (18446744073709551615 + 1) ++
            " tests failed")⟩ := by
  have h : tap_to_result ⟨false, .declared 2, 18446744073709551615, 1⟩ (.exited_with 1) =
      .ok ⟨.test_result_failed, some "1 of 0 tests failed"⟩ := by
    simp [tap_to_result, tap_plan.is_all_skipped, size_t_add, SIZE_MAX]
    rfl
  refine ⟨h, ?_⟩
  rw [h]
  intro hcontra
  have hs := congrArg (fun r => r.reason) (Except.ok.inj hcontra)
  revert hs
  decide

/-- C10, amended: a summary that is not bailed out, whose plan is not
all-skipped, with `not_ok_count = k > 0` and `ok_count = m`, where `m + k` is at
most `SIZE_MAX`, gives on every exit code the failed result whose reason is the
decimal rendering of `k`, then " of ", then the decimal rendering of `m + k`,
then " tests failed". -/
theorem tap_to_result_failed_count (summary : tap_summary) (c : Int) (k m : Nat)
    (hb : summary.bailed_out = false) (hp : summary.plan.is_all_skipped = false)
    (hn : summary.not_ok_count = k) (hk : 0 < k) (hm : summary.ok_count = m)
    (hfit : m + k ≤ SIZE_MAX) :
    tap_to_result summary (.exited_with c) =
      .ok ⟨.test_result_failed,
        some (format_size k ++ " of " ++ format_size (m + k) ++ " tests failed")⟩ := by
  have hk0 : k ≠ 0 := Nat.pos_iff_ne_zero.mp hk
  have hlt : m + k < SIZE_MAX + 1 := Nat.lt_succ_of_le hfit
  simp [tap_to_result, hb, hp, hn, hm, hk0, size_t_add, Nat.mod_eq_of_lt hlt]

/-- Instance of C10 amended: a plan of two tests, one ok and one not ok, exit
code 0. -/
theorem tap_to_result_failed_count_witness :
    (1 + 1 ≤ SIZE_MAX) ∧
      tap_to_result ⟨false, .declared 2, 1, 1⟩ (.exited_with 0) =
        .ok ⟨.test_result_failed, some "1 of 2 tests failed"⟩ :=
  ⟨by decide,
    tap_to_result_failed_count ⟨false, .declared 2, 1, 1⟩ 0 1 1 rfl rfl rfl (by decide) rfl
      (by decide)⟩

/-! ## Shared case analysis -/

/-- The five ends of `tap_to_result` on a status that exited, each with the
condition on the summary and the exit code under which it is taken. -/
theorem tap_to_result_exited_cases (summary : tap_summary) (c : Int) :
    (summary.bailed_out = true ∧
        tap_to_result summary (.exited_with c) =
          .ok ⟨.test_result_failed, some "Bailed out"⟩) ∨
      (summary.bailed_out = false ∧ ∃ r, summary.plan = .all_skipped r ∧
        tap_to_result summary (.exited_with c) = .ok ⟨.test_result_skipped, some r⟩) ∨
      (summary.bailed_out = false ∧ summary.plan.is_all_skipped = false ∧
        summary.not_ok_count = 0 ∧ c = EXIT_SUCCESS ∧
        tap_to_result summary (.exited_with c) = .ok ⟨.test_result_passed, none⟩) ∨
      (summary.bailed_out = false ∧ summary.plan.is_all_skipped = false ∧
        summary.not_ok_count = 0 ∧ c ≠ EXIT_SUCCESS ∧
        tap_to_result summary (.exited_with c) =
          .ok ⟨.test_result_broken,
            some ("Dubious test program: reported all tests as passed " ++
              "but returned exit code " ++ format_int c)⟩) ∨
      (summary.bailed_out = false ∧ summary.plan.is_all_skipped = false ∧
        summary.not_ok_count ≠ 0 ∧
        tap_to_result summary (.exited_with c) =
          .ok ⟨.test_result_failed,
            some (format_size summary.not_ok_count ++ " of " ++
              format_size (size_t_add summary.ok_count summary.not_ok_count) ++
              " tests failed")⟩) := by
  obtain ⟨b, plan, okc, nokc⟩ := summary
  cases b with
  | true => exact Or.inl ⟨rfl, rfl⟩
  | false =>
    right
    cases plan with
    | all_skipped r => exact Or.inl ⟨rfl, r, rfl, rfl⟩
    | declared total =>
      right
      by_cases hn : nokc = 0
      · by_cases hc : c = EXIT_SUCCESS
        · left
          refine ⟨rfl, rfl, hn, hc, ?_⟩
          simp [tap_to_result, tap_plan.is_all_skipped, hn, hc, status.exitstatus, bind,
            Except.bind]
        · right; left
          refine ⟨rfl, rfl, hn, hc, ?_⟩
          simp [tap_to_result, tap_plan.is_all_skipped, hn, hc, status.exitstatus, bind,
            Except.bind]
      · right; right
        refine ⟨rfl, rfl, hn, ?_⟩
        simp [tap_to_result, tap_plan.is_all_skipped, hn]

/-- On a status that exited `tap_to_result` returns a result. -/
theorem tap_to_result_exited_returns (summary : tap_summary) (c : Int) :
    ∃ res, tap_to_result summary (.exited_with c) = .ok res := by
  rcases tap_to_result_exited_cases summary c with
    ⟨-, h⟩ | ⟨-, r, -, h⟩ | ⟨-, -, -, -, h⟩ | ⟨-, -, -, -, h⟩ | ⟨-, -, -, h⟩ <;>
  exact ⟨_, h⟩

/-- On a signaled status the reads of the exit code in `tap_to_result` are
contract violations: the function is safe only behind the test of
`compute_result`. -/
theorem tap_to_result_signaled_violates :
    tap_to_result ⟨false, .declared 1, 1, 0⟩ (.signaled_with 9) =
      .error .precondition_violated := rfl

/-! ## compute_result on a parsed summary -/

/-- C11: for every exit code `c`, when the parser turns the stdout file into
the summary `s`, `compute_result` on exited(c) returns exactly what
`tap_to_result` returns on `s` and exited(c). -/
theorem compute_result_parsed (parse_tap_output : fs_path → Except fault tap_summary)
    (c : Int) (summary : tap_summary) (control_directory stdout_path stderr_path : fs_path)
    (h : parse_tap_output stdout_path = .ok summary) :
    compute_result parse_tap_output (some (.exited_with c)) control_directory
        stdout_path stderr_path =
      tap_to_result summary (.exited_with c) := by
  simp [compute_result, status.signaled, h]

/-- Instance of C11: the summary of plan 1..2 with two ok lines gives passed on
exit code 0 and the broken result of the dubious exit code on exit code 1. -/
theorem compute_result_parsed_witness :
    compute_result (fun _ => .ok ⟨false, .declared 2, 2, 0⟩) (some (.exited_with 0))
        ⟨"/work/control"⟩ ⟨"/work/stdout.txt"⟩ ⟨"/work/stderr.txt"⟩ =
        .ok ⟨.test_result_passed, none⟩ ∧
      compute_result (fun _ => .ok ⟨false, .declared 2, 2, 0⟩) (some (.exited_with 1))
        ⟨"/work/control"⟩ ⟨"/work/stdout.txt"⟩ ⟨"/work/stderr.txt"⟩ =
        .ok ⟨.test_result_broken,
          some "Dubious test program: reported all tests as passed but returned exit code 1"⟩ :=
  ⟨(compute_result_parsed (fun _ => .ok ⟨false, .declared 2, 2, 0⟩) 0
      ⟨false, .declared 2, 2, 0⟩ ⟨"/work/control"⟩ ⟨"/work/stdout.txt"⟩
      ⟨"/work/stderr.txt"⟩ rfl).trans rfl,
    (compute_result_parsed (fun _ => .ok ⟨false, .declared 2, 2, 0⟩) 1
      ⟨false, .declared 2, 2, 0⟩ ⟨"/work/control"⟩ ⟨"/work/stdout.txt"⟩
      ⟨"/work/stderr.txt"⟩ rfl).trans rfl⟩

/-! ## exec_test: the exported variables -/

/-- The name of the exported variable determines the key. -/
theorem test_env_name_injective (a b : String) (h : "TEST_ENV_" ++ a = "TEST_ENV_" ++ b) :
    a = b := by
  have hd := congrArg String.data h
  simp only [String.data_append] at hd
  exact String.ext (List.append_cancel_left hd)

/-- The loop leaves a name alone that no entry exports. -/
theorem exec_test_loop_frame (vars : List (String × String)) (env : environment)
    (name : String) (h : ∀ k v, (k, v) ∈ vars → name ≠ "TEST_ENV_" ++ k) :
    exec_test_loop vars env name = env name := by
  induction vars generalizing env with
  | nil => rfl
  | cons entry rest ih =>
    have hrest : ∀ k v, (k, v) ∈ rest → name ≠ "TEST_ENV_" ++ k :=
      fun k v hm => h k v (List.mem_cons_of_mem _ hm)
    have hne : name ≠ "TEST_ENV_" ++ entry.1 := h entry.1 entry.2 (List.mem_cons_self _ _)
    rw [exec_test_loop, ih _ hrest]
    simp [setenv, hne]

/-- With distinct keys the loop binds the exported name of each entry to the
value of that entry. -/
theorem exec_test_loop_binds (vars : List (String × String)) (env : environment)
    (hd : (vars.map Prod.fst).Nodup) (k v : String) (hm : (k, v) ∈ vars) :
    exec_test_loop vars env ("TEST_ENV_" ++ k) = some v := by
  induction vars generalizing env with
  | nil => cases hm
  | cons entry rest ih =>
    rw [List.map_cons, List.nodup_cons] at hd
    rw [exec_test_loop]
    rcases List.mem_cons.mp hm with heq | hin
    · subst heq
      have hfr : ∀ k2 v2, (k2, v2) ∈ rest → "TEST_ENV_" ++ k ≠ "TEST_ENV_" ++ k2 := by
        intro k2 v2 h2 hcontra
        have := test_env_name_injective _ _ hcontra
        subst this
        exact hd.1 (List.mem_map.mpr ⟨(k, v2), h2, rfl⟩)
      rw [exec_test_loop_frame rest _ _ hfr]
      simp [setenv]
    · exact ih _ hd.2 hin

/-- C12: for every `vars` with distinct keys and every initial environment,
after the loop of `exec_test` the environment binds "TEST_ENV_" followed by `k`
to `v` for every entry `(k, v)` of `vars`, and a name that is not "TEST_ENV_"
followed by a key of `vars` keeps its initial binding; this is the environment
in which `exec_test`, called on "main", ends. -/
theorem exec_test_exports_vars (program : test_program) (vars : List (String × String))
    (control_directory : fs_path) (p : process_state)
    (hd : (vars.map Prod.fst).Nodup) :
    (∀ k v, (k, v) ∈ vars → exec_test_loop vars p.env ("TEST_ENV_" ++ k) = some v) ∧
      (∀ name, (∀ k v, (k, v) ∈ vars → name ≠ "TEST_ENV_" ++ k) →
        exec_test_loop vars p.env name = p.env name) ∧
      (exec_test program "main" vars control_directory p).state.env =
        exec_test_loop vars p.env :=
  ⟨fun k v hm => exec_test_loop_binds vars p.env hd k v hm,
    fun name h => exec_test_loop_frame vars p.env name h, rfl⟩

/-- Instance of C12: two entries, over an environment that binds HOME and
already binds TEST_ENV_A. -/
theorem exec_test_exports_vars_witness :
    (List.map Prod.fst [("A", "1"), ("B", "2")]).Nodup ∧
      exec_test_loop [("A", "1"), ("B", "2")]
        (fun n => if n = "HOME" then some "/root" else
          if n = "TEST_ENV_A" then some "old" else none) ("TEST_ENV_" ++ "A") = some "1" ∧
      exec_test_loop [("A", "1"), ("B", "2")]
        (fun n => if n = "HOME" then some "/root" else
          if n = "TEST_ENV_A" then some "old" else none) ("TEST_ENV_" ++ "B") = some "2" ∧
      exec_test_loop [("A", "1"), ("B", "2")]
        (fun n => if n = "HOME" then some "/root" else
          if n = "TEST_ENV_A" then some "old" else none) "HOME" = some "/root" :=
  ⟨by decide,
    (exec_test_exports_vars ⟨⟨"/usr/tests/prog"⟩⟩ [("A", "1"), ("B", "2")] ⟨"/work/control"⟩
      ⟨fun n => if n = "HOME" then some "/root" else
        if n = "TEST_ENV_A" then some "old" else none, none⟩ (by decide)).1 "A" "1"
      (by decide),
    (exec_test_exports_vars ⟨⟨"/usr/tests/prog"⟩⟩ [("A", "1"), ("B", "2")] ⟨"/work/control"⟩
      ⟨fun n => if n = "HOME" then some "/root" else
        if n = "TEST_ENV_A" then some "old" else none, none⟩ (by decide)).1 "B" "2"
      (by decide),
    (exec_test_exports_vars ⟨⟨"/usr/tests/prog"⟩⟩ [("A", "1"), ("B", "2")] ⟨"/work/control"⟩
      ⟨fun n => if n = "HOME" then some "/root" else
        if n = "TEST_ENV_A" then some "old" else none, none⟩ (by decide)).2.1 "HOME"
      (by
        intro k v hm
        simp only [List.mem_cons, Prod.mk.injEq, List.mem_singleton, List.mem_nil_iff,
          or_false] at hm
        rcases hm with ⟨rfl, -⟩ | ⟨rfl, -⟩ <;> decide)⟩

/-! ## The reason of a result -/

/-- A result of `tap_to_result` on a status that exited has a reason exactly
when it is not the passed result. -/
theorem tap_to_result_reason (summary : tap_summary) (c : Int) (res : test_result)
    (h : tap_to_result summary (.exited_with c) = .ok res) :
    res.reason.isSome = true ↔ res.type ≠ .test_result_passed := by
  rcases tap_to_result_exited_cases summary c with
    ⟨-, h2⟩ | ⟨-, r, -, h2⟩ | ⟨-, -, -, -, h2⟩ | ⟨-, -, -, -, h2⟩ | ⟨-, -, -, h2⟩ <;>
  · rw [h2] at h
    cases h
    simp

/-- C13: a result returned by `compute_result` carries a reason exactly when
its kind is not passed, for every optional status and every parser; and when
the parser gives a summary or throws a `load_error`, a result is returned. -/
theorem compute_result_reason_iff_not_passed (parse_tap_output : fs_path → Except fault tap_summary)
    (st : Option status) (control_directory stdout_path stderr_path : fs_path) :
    (∀ res, compute_result parse_tap_output st control_directory stdout_path
          stderr_path = .ok res →
        (res.reason.isSome = true ↔ res.type ≠ .test_result_passed)) ∧
      ((∃ s, parse_tap_output stdout_path = .ok s) ∨
          (∃ e, parse_tap_output stdout_path = .error (.thrown_load_error e)) →
        ∃ res, compute_result parse_tap_output st control_directory stdout_path
          stderr_path = .ok res) := by
  constructor
  · intro res h
    cases st with
    | none => cases h; simp
    | some s =>
      cases s with
      | signaled_with n => cases h; simp
      | exited_with c =>
        simp only [compute_result, status.signaled] at h
        cases hq : parse_tap_output stdout_path with
        | ok s =>
          rw [hq] at h
          exact tap_to_result_reason s c res h
        | error f =>
          rw [hq] at h
          cases f with
          | precondition_violated => simp at h
          | thrown_load_error e => simp at h; subst h; simp
          | thrown_other => simp at h
  · intro hp
    cases st with
    | none => exact ⟨_, rfl⟩
    | some s =>
      cases s with
      | signaled_with n => exact ⟨_, rfl⟩
      | exited_with c =>
        rcases hp with ⟨s, hs⟩ | ⟨e, he⟩
        · obtain ⟨res, hres⟩ := tap_to_result_exited_returns s c
          exact ⟨res, by simp [compute_result, status.signaled, hs, hres]⟩
        · exact ⟨⟨.test_result_broken,
            some ("TAP test program yielded invalid data: " ++ e.what)⟩,
            by simp [compute_result, status.signaled, he]⟩

/-- Instance of C13: a timeout is broken and carries a reason, and with a
parsed summary a result is returned. -/
theorem compute_result_reason_iff_not_passed_witness :
    ((⟨.test_result_broken, some "Test case timed out"⟩ : test_result).reason.isSome = true ↔
        (⟨.test_result_broken, some "Test case timed out"⟩ : test_result).type ≠
          .test_result_passed) ∧
      ∃ res, compute_result (fun _ => .ok ⟨false, .declared 2, 2, 0⟩) (some (.exited_with 0))
        ⟨"/work/control"⟩ ⟨"/work/stdout.txt"⟩ ⟨"/work/stderr.txt"⟩ = .ok res :=
  ⟨(compute_result_reason_iff_not_passed (fun _ => .ok ⟨false, .declared 2, 2, 0⟩) none
      ⟨"/work/control"⟩ ⟨"/work/stdout.txt"⟩ ⟨"/work/stderr.txt"⟩).1
      ⟨.test_result_broken, some "Test case timed out"⟩ rfl,
    (compute_result_reason_iff_not_passed (fun _ => .ok ⟨false, .declared 2, 2, 0⟩)
      (some (.exited_with 0)) ⟨"/work/control"⟩ ⟨"/work/stdout.txt"⟩
      ⟨"/work/stderr.txt"⟩).2 (Or.inl ⟨_, rfl⟩)⟩

/-! ## exec_test: the contract on the test case name -/

/-- C14: called with a test case name other than "main", `exec_test` stops at
its precondition check with the state of the process as it was, no variable
set and no program executed; called with "main" it is not stopped and executes
the program at the absolute path of the test program with an empty argument
vector. -/
theorem exec_test_main_only (program : test_program) (test_case_name : String)
    (vars : List (String × String)) (control_directory : fs_path) (p : process_state) :
    (test_case_name ≠ "main" →
        (exec_test program test_case_name vars control_directory p).stopped_by =
            some .precondition_violated ∧
          (exec_test program test_case_name vars control_directory p).state = p) ∧
      (test_case_name = "main" →
        (exec_test program test_case_name vars control_directory p).stopped_by = none ∧
          (exec_test program test_case_name vars control_directory p).state.exec_call =
            some (program.absolute_path, [])) := by
  constructor
  · intro h
    simp [exec_test, h]
  · intro h
    simp [exec_test, h, process.exec]

/-- Instance of C14: the names "other" and "main" over an environment that
binds HOME. -/
theorem exec_test_main_only_witness :
    ((exec_test ⟨⟨"/usr/tests/prog"⟩⟩ "other" [("A", "1")] ⟨"/work/control"⟩
          ⟨fun n => if n = "HOME" then some "/root" else none, none⟩).stopped_by =
          some .precondition_violated ∧
        (exec_test ⟨⟨"/usr/tests/prog"⟩⟩ "other" [("A", "1")] ⟨"/work/control"⟩
          ⟨fun n => if n = "HOME" then some "/root" else none, none⟩).state =
          ⟨fun n => if n = "HOME" then some "/root" else none, none⟩) ∧
      (exec_test ⟨⟨"/usr/tests/prog"⟩⟩ "main" [("A", "1")] ⟨"/work/control"⟩
          ⟨fun n => if n = "HOME" then some "/root" else none, none⟩).stopped_by = none ∧
        (exec_test ⟨⟨"/usr/tests/prog"⟩⟩ "main" [("A", "1")] ⟨"/work/control"⟩
          ⟨fun n => if n = "HOME" then some "/root" else none, none⟩).state.exec_call =
          some (⟨"/usr/tests/prog"⟩, []) :=
  ⟨(exec_test_main_only ⟨⟨"/usr/tests/prog"⟩⟩ "other" [("A", "1")] ⟨"/work/control"⟩
      ⟨fun n => if n = "HOME" then some "/root" else none, none⟩).1 (by decide),
    (exec_test_main_only ⟨⟨"/usr/tests/prog"⟩⟩ "main" [("A", "1")] ⟨"/work/control"⟩
      ⟨fun n => if n = "HOME" then some "/root" else none, none⟩).2 rfl⟩

/-! ## What tap_to_result does not depend on -/

/-- C15: two summaries whose plans are both not all-skipped and that agree on
`bailed_out`, `ok_count` and `not_ok_count` get the same result on every exit
code, so the declared total is compared with nothing; the summary that is not
bailed out, declares 5 tests and counts 2 ok and 0 not ok lines gives passed on
exit code 0. -/
theorem tap_to_result_ignores_plan_total (s1 s2 : tap_summary) (c : Int)
    (h1 : s1.plan.is_all_skipped = false) (h2 : s2.plan.is_all_skipped = false)
    (hb : s1.bailed_out = s2.bailed_out) (hok : s1.ok_count = s2.ok_count)
    (hnok : s1.not_ok_count = s2.not_ok_count) :
    tap_to_result s1 (.exited_with c) = tap_to_result s2 (.exited_with c) ∧
      tap_to_result ⟨false, .declared 5, 2, 0⟩ (.exited_with 0) =
        .ok ⟨.test_result_passed, none⟩ := by
  refine ⟨?_, rfl⟩
  simp [tap_to_result, h1, h2, hb, hok, hnok]

/-- Instance of C15: plans of 5 and of 2 tests over the same counters. -/
theorem tap_to_result_ignores_plan_total_witness :
    tap_to_result ⟨false, .declared 5, 2, 0⟩ (.exited_with 0) =
        tap_to_result ⟨false, .declared 2, 2, 0⟩ (.exited_with 0) ∧
      tap_to_result ⟨false, .declared 5, 2, 0⟩ (.exited_with 0) =
        .ok ⟨.test_result_passed, none⟩ :=
  tap_to_result_ignores_plan_total ⟨false, .declared 5, 2, 0⟩ ⟨false, .declared 2, 2, 0⟩ 0
    rfl rfl rfl rfl rfl

/-- C16: for a summary that is bailed out, or has an all-skipped plan, or has
`not_ok_count > 0`, any two exit codes give the same result; and a summary
that is not bailed out, not all-skipped and has `not_ok_count > 0` gives a
failed result on exit code 0. -/
theorem tap_to_result_exit_code_irrelevant (summary : tap_summary) (c1 c2 : Int)
    (h : summary.bailed_out = true ∨ summary.plan.is_all_skipped = true ∨
      0 < summary.not_ok_count) :
    tap_to_result summary (.exited_with c1) = tap_to_result summary (.exited_with c2) ∧
      (summary.bailed_out = false → summary.plan.is_all_skipped = false →
        0 < summary.not_ok_count →
        ∃ res, tap_to_result summary (.exited_with EXIT_SUCCESS) = .ok res ∧
          res.type = .test_result_failed) := by
  constructor
  · rcases h with hb | hp | hn
    · simp [tap_to_result, hb]
    · simp [tap_to_result, hp]
    · have hn0 : summary.not_ok_count ≠ 0 := Nat.pos_iff_ne_zero.mp hn
      simp [tap_to_result, hn0]
  · intro hb hp hn
    have hn0 : summary.not_ok_count ≠ 0 := Nat.pos_iff_ne_zero.mp hn
    exact ⟨_, by simp [tap_to_result, hb, hp, hn0]; rfl, rfl⟩

/-- Instance of C16: one of two tests not ok, exit codes 0 and 1. -/
theorem tap_to_result_exit_code_irrelevant_witness :
    tap_to_result ⟨false, .declared 2, 1, 1⟩ (.exited_with 0) =
      tap_to_result ⟨false, .declared 2, 1, 1⟩ (.exited_with 1) :=
  (tap_to_result_exit_code_irrelevant ⟨false, .declared 2, 1, 1⟩ 0 1
    (Or.inr (Or.inr (by decide)))).1

/-! ## compute_result: safety of the reads and the broken results -/

/-- The five ends of `compute_result`, each with the condition on the status
and on what the parser made of the stdout file under which it is taken. -/
theorem compute_result_cases (parse_tap_output : fs_path → Except fault tap_summary)
    (st : Option status) (control_directory stdout_path stderr_path : fs_path) :
    (st = none ∧
        compute_result parse_tap_output st control_directory stdout_path stderr_path =
          .ok ⟨.test_result_broken, some "Test case timed out"⟩) ∨
      (∃ n, st = some (.signaled_with n) ∧
        compute_result parse_tap_output st control_directory stdout_path stderr_path =
          .ok ⟨.test_result_broken, some ("Received signal " ++ format_int n)⟩) ∨
      (∃ c e, st = some (.exited_with c) ∧
        parse_tap_output stdout_path = .error (.thrown_load_error e) ∧
        compute_result parse_tap_output st control_directory stdout_path stderr_path =
          .ok ⟨.test_result_broken,
            some ("TAP test program yielded invalid data: " ++ e.what)⟩) ∨
      (∃ c f, st = some (.exited_with c) ∧ parse_tap_output stdout_path = .error f ∧
        (∀ e, f ≠ .thrown_load_error e) ∧
        compute_result parse_tap_output st control_directory stdout_path stderr_path =
          .error f) ∨
      (∃ c s, st = some (.exited_with c) ∧ parse_tap_output stdout_path = .ok s ∧
        compute_result parse_tap_output st control_directory stdout_path stderr_path =
          tap_to_result s (.exited_with c)) := by
  cases st with
  | none => exact Or.inl ⟨rfl, rfl⟩
  | some s =>
    cases s with
    | signaled_with n => exact Or.inr (Or.inl ⟨n, rfl, rfl⟩)
    | exited_with c =>
      cases hq : parse_tap_output stdout_path with
      | ok s =>
        refine Or.inr (Or.inr (Or.inr (Or.inr ⟨c, s, rfl, rfl, ?_⟩)))
        simp [compute_result, status.signaled, hq]
      | error f =>
        cases f with
        | thrown_load_error e =>
          refine Or.inr (Or.inr (Or.inl ⟨c, e, rfl, rfl, ?_⟩))
          simp [compute_result, status.signaled, hq]
        | precondition_violated =>
          refine Or.inr (Or.inr (Or.inr (Or.inl ⟨c, _, rfl, rfl, ?_, ?_⟩)))
          · intro e h; cases h
          · simp [compute_result, status.signaled, hq]
        | thrown_other =>
          refine Or.inr (Or.inr (Or.inr (Or.inl ⟨c, _, rfl, rfl, ?_, ?_⟩)))
          · intro e h; cases h
          · simp [compute_result, status.signaled, hq]

/-- C17, as stated, fails: on a status that exited, a parser that ends with a
fault other than a `load_error` is not caught, and `compute_result` returns no
result. -/
theorem compute_result_other_fault_no_result :
    compute_result (fun _ => .error .thrown_other) (some (.exited_with 0))
        ⟨"/work/control"⟩ ⟨"/work/stdout.txt"⟩ ⟨"/work/stderr.txt"⟩ =
        .error .thrown_other ∧
      ¬ ∃ res, compute_result (fun _ => .error .thrown_other) (some (.exited_with 0))
        ⟨"/work/control"⟩ ⟨"/work/stdout.txt"⟩ ⟨"/work/stderr.txt"⟩ = .ok res := by
  refine ⟨rfl, ?_⟩
  rintro ⟨res, h⟩
  cases h

/-- C17, amended: for every optional status and every parser, `compute_result`
ends without a result exactly when the status exited and the parser ended with
a fault other than a `load_error`, and then with that fault of the parser: the
contract checks of `exitstatus` and `termsig` never fail.  It returns a result
when the status is absent or signaled and when the parser gives a summary or
throws a `load_error`; `tap_to_result`, reached on a status that exited only,
returns a result there, and a signaled status is answered from its signal
number before that. -/
theorem compute_result_reads_guarded (parse_tap_output : fs_path → Except fault tap_summary)
    (st : Option status) (control_directory stdout_path stderr_path : fs_path) :
    (∀ f, compute_result parse_tap_output st control_directory stdout_path
          stderr_path = .error f ↔
        (∃ c, st = some (.exited_with c)) ∧ parse_tap_output stdout_path = .error f ∧
          ∀ e, f ≠ .thrown_load_error e) ∧
      (st = none ∨ (∃ n, st = some (.signaled_with n)) ∨
          (∃ s, parse_tap_output stdout_path = .ok s) ∨
          (∃ e, parse_tap_output stdout_path = .error (.thrown_load_error e)) →
        ∃ res, compute_result parse_tap_output st control_directory stdout_path
          stderr_path = .ok res) ∧
      (∀ s c, ∃ res, tap_to_result s (.exited_with c) = .ok res) ∧
      (∀ n, compute_result parse_tap_output (some (.signaled_with n))
          control_directory stdout_path stderr_path =
        .ok ⟨.test_result_broken, some ("Received signal " ++ format_int n)⟩) := by
  have hfault : ∀ f, compute_result parse_tap_output st control_directory stdout_path
        stderr_path = .error f ↔
      (∃ c, st = some (.exited_with c)) ∧ parse_tap_output stdout_path = .error f ∧
        ∀ e, f ≠ .thrown_load_error e := by
    intro f
    rcases compute_result_cases parse_tap_output st control_directory stdout_path
        stderr_path with
      ⟨hst, h⟩ | ⟨n, hst, h⟩ | ⟨c, e, hst, hq, h⟩ | ⟨c, g, hst, hq, hg, h⟩ |
        ⟨c, s, hst, hq, h⟩
    · rw [h]
      constructor
      · intro hc; cases hc
      · rintro ⟨⟨c, hc⟩, -, -⟩
        rw [hst] at hc; cases hc
    · rw [h]
      constructor
      · intro hc; cases hc
      · rintro ⟨⟨c, hc⟩, -, -⟩
        rw [hst] at hc; cases hc
    · rw [h, hq]
      constructor
      · intro hc; cases hc
      · rintro ⟨-, hc, hne⟩
        cases hc
        exact absurd rfl (hne e)
    · rw [h, hq]
      constructor
      · intro hc
        cases hc
        exact ⟨⟨c, hst⟩, rfl, hg⟩
      · rintro ⟨-, hc, -⟩
        cases hc
        rfl
    · obtain ⟨res, hres⟩ := tap_to_result_exited_returns s c
      rw [h, hres, hq]
      constructor
      · intro hc; cases hc
      · rintro ⟨-, hc, -⟩; cases hc
  refine ⟨hfault, ?_, tap_to_result_exited_returns, fun n => rfl⟩
  intro hp
  rcases compute_result_cases parse_tap_output st control_directory stdout_path
      stderr_path with
    ⟨hst, h⟩ | ⟨n, hst, h⟩ | ⟨c, e, hst, hq, h⟩ | ⟨c, g, hst, hq, hg, h⟩ |
      ⟨c, s, hst, hq, h⟩
  · exact ⟨_, h⟩
  · exact ⟨_, h⟩
  · exact ⟨_, h⟩
  · rcases hp with hn | ⟨n, hn⟩ | ⟨s, hs⟩ | ⟨e, he⟩
    · rw [hn] at hst; cases hst
    · rw [hn] at hst; cases hst
    · rw [hs] at hq; cases hq
    · rw [he] at hq; cases hq; exact absurd rfl (hg e)
  · obtain ⟨res, hres⟩ := tap_to_result_exited_returns s c
    exact ⟨res, h.trans hres⟩

/-- Instance of C17 amended: the parser throws a `load_error`, exit code 0. -/
theorem compute_result_reads_guarded_witness :
    ∃ res, compute_result (fun _ => .error (.thrown_load_error ⟨"No plan found in TAP output"⟩))
      (some (.exited_with 0)) ⟨"/work/control"⟩ ⟨"/work/stdout.txt"⟩ ⟨"/work/stderr.txt"⟩ =
        .ok res :=
  (compute_result_reads_guarded
    (fun _ => .error (.thrown_load_error ⟨"No plan found in TAP output"⟩))
    (some (.exited_with 0)) ⟨"/work/control"⟩ ⟨"/work/stdout.txt"⟩
    ⟨"/work/stderr.txt"⟩).2.1 (Or.inr (Or.inr (Or.inr ⟨_, rfl⟩)))

/-- C18, as stated, fails: with a status that exited and a parser that fails
with a fault other than a `load_error`, no result is returned, neither a
broken one nor one of another kind. -/
theorem compute_result_parse_fault_not_broken :
    compute_result (fun _ => .error .thrown_other) (some (.exited_with 1))
        ⟨"/work/control"⟩ ⟨"/work/stdout.txt"⟩ ⟨"/work/stderr.txt"⟩ =
        .error .thrown_other ∧
      ¬ ∃ res, compute_result (fun _ => .error .thrown_other) (some (.exited_with 1))
          ⟨"/work/control"⟩ ⟨"/work/stdout.txt"⟩ ⟨"/work/stderr.txt"⟩ = .ok res ∧
        (res.type = .test_result_broken ∨ res.type = .test_result_passed ∨
          res.type = .test_result_failed ∨ res.type = .test_result_skipped) := by
  refine ⟨rfl, ?_⟩
  rintro ⟨res, h, -⟩
  cases h

/-- C18, amended: for every optional status and every parser, `compute_result`
returns a result of kind broken exactly when the status is absent, or is
signaled, or exited and the parser threw a `load_error`, or exited with a code
other than `EXIT_SUCCESS` and the summary is not bailed out, has a plan that is
not all-skipped and has `not_ok_count = 0`.  A returned result that is not
broken is passed, failed or skipped.  No result is returned exactly when the
status exited and the parser ended with a fault other than a `load_error`; in
every case that is neither this one nor one of the four, a result is returned
and its kind is passed, failed or skipped. -/
theorem compute_result_broken_iff (parse_tap_output : fs_path → Except fault tap_summary)
    (st : Option status) (control_directory stdout_path stderr_path : fs_path) :
    ((∃ res, compute_result parse_tap_output st control_directory stdout_path
          stderr_path = .ok res ∧ res.type = .test_result_broken) ↔
        (st = none ∨ (∃ n, st = some (.signaled_with n)) ∨
          (∃ c e, st = some (.exited_with c) ∧
            parse_tap_output stdout_path = .error (.thrown_load_error e)) ∨
          (∃ c s, st = some (.exited_with c) ∧ c ≠ EXIT_SUCCESS ∧
            parse_tap_output stdout_path = .ok s ∧ s.bailed_out = false ∧
            s.plan.is_all_skipped = false ∧ s.not_ok_count = 0))) ∧
      (∀ res, compute_result parse_tap_output st control_directory stdout_path
          stderr_path = .ok res →
        res.type ≠ .test_result_broken →
        res.type = .test_result_passed ∨ res.type = .test_result_failed ∨
          res.type = .test_result_skipped) ∧
      ((∀ res, compute_result parse_tap_output st control_directory stdout_path
          stderr_path ≠ .ok res) ↔
        ∃ c f, st = some (.exited_with c) ∧ parse_tap_output stdout_path = .error f ∧
          ∀ e, f ≠ .thrown_load_error e) ∧
      (¬ (st = none ∨ (∃ n, st = some (.signaled_with n)) ∨
          (∃ c e, st = some (.exited_with c) ∧
            parse_tap_output stdout_path = .error (.thrown_load_error e)) ∨
          (∃ c s, st = some (.exited_with c) ∧ c ≠ EXIT_SUCCESS ∧
            parse_tap_output stdout_path = .ok s ∧ s.bailed_out = false ∧
            s.plan.is_all_skipped = false ∧ s.not_ok_count = 0)) →
        ¬ (∃ c f, st = some (.exited_with c) ∧ parse_tap_output stdout_path = .error f ∧
          ∀ e, f ≠ .thrown_load_error e) →
        ∃ res, compute_result parse_tap_output st control_directory stdout_path
            stderr_path = .ok res ∧
          (res.type = .test_result_passed ∨ res.type = .test_result_failed ∨
            res.type = .test_result_skipped)) := by
  have main : ((∃ res, compute_result parse_tap_output st control_directory stdout_path
          stderr_path = .ok res ∧ res.type = .test_result_broken) ↔
        (st = none ∨ (∃ n, st = some (.signaled_with n)) ∨
          (∃ c e, st = some (.exited_with c) ∧
            parse_tap_output stdout_path = .error (.thrown_load_error e)) ∨
          (∃ c s, st = some (.exited_with c) ∧ c ≠ EXIT_SUCCESS ∧
            parse_tap_output stdout_path = .ok s ∧ s.bailed_out = false ∧
            s.plan.is_all_skipped = false ∧ s.not_ok_count = 0))) ∧
      (∀ res, compute_result parse_tap_output st control_directory stdout_path
          stderr_path = .ok res →
        res.type ≠ .test_result_broken →
        res.type = .test_result_passed ∨ res.type = .test_result_failed ∨
          res.type = .test_result_skipped) ∧
      ((∀ res, compute_result parse_tap_output st control_directory stdout_path
          stderr_path ≠ .ok res) ↔
        ∃ c f, st = some (.exited_with c) ∧ parse_tap_output stdout_path = .error f ∧
          ∀ e, f ≠ .thrown_load_error e) := by
    rcases compute_result_cases parse_tap_output st control_directory stdout_path
        stderr_path with
      ⟨hst, h⟩ | ⟨n, hst, h⟩ | ⟨c, e, hst, hq, h⟩ | ⟨c, g, hst, hq, hg, h⟩ |
        ⟨c, s, hst, hq, h⟩
    · subst hst
      rw [h]
      simp
    · subst hst
      rw [h]
      simp
    · subst hst
      rw [h]
      simp [hq]
    · subst hst
      rw [h]
      simp only [hq]
      refine ⟨?_, ?_, ?_⟩
      · constructor
        · rintro ⟨res, hc, -⟩; cases hc
        · rintro (hc | ⟨n, hc⟩ | ⟨c2, e, -, hc⟩ | ⟨c2, s, -, -, hc, -⟩)
          · cases hc
          · cases hc
          · cases hc; exact absurd rfl (hg e)
          · cases hc
      · intro res hc; cases hc
      · constructor
        · intro _
          exact ⟨c, g, rfl, rfl, hg⟩
        · intro _ res hc
          cases hc
    · subst hst
      rw [h]
      rcases tap_to_result_exited_cases s c with
        ⟨hb, ht⟩ | ⟨hb, r, hr, ht⟩ | ⟨hb, hpl, hn, hcode, ht⟩ | ⟨hb, hpl, hn, hcode, ht⟩ |
          ⟨hb, hpl, hn, ht⟩
      · rw [ht]; simp [hq, hb]
      · rw [ht]; simp [hq, hb, hr, tap_plan.is_all_skipped]
      · rw [ht]; simp [hq, hcode]
      · rw [ht]; simp [hq, hb, hpl, hn, hcode]
      · rw [ht]; simp [hq, hn]
  refine ⟨main.1, main.2.1, main.2.2, ?_⟩
  intro hD hU
  have hret : ∃ res, compute_result parse_tap_output st control_directory stdout_path
      stderr_path = .ok res := by
    by_contra hne
    exact hU (main.2.2.mp (fun res hres => hne ⟨res, hres⟩))
  obtain ⟨res, hres⟩ := hret
  have hnb : res.type ≠ .test_result_broken := fun hb => hD (main.1.mp ⟨res, hres, hb⟩)
  exact ⟨res, hres, main.2.1 res hres hnb⟩

/-- Instance of C18 amended: two ok lines of a plan of two and exit code 1 is
the fourth broken case. -/
theorem compute_result_broken_iff_witness :
    ∃ res, compute_result (fun _ => .ok ⟨false, .declared 2, 2, 0⟩) (some (.exited_with 1))
        ⟨"/work/control"⟩ ⟨"/work/stdout.txt"⟩ ⟨"/work/stderr.txt"⟩ = .ok res ∧
      res.type = .test_result_broken :=
  (compute_result_broken_iff (fun _ => .ok ⟨false, .declared 2, 2, 0⟩)
    (some (.exited_with 1)) ⟨"/work/control"⟩ ⟨"/work/stdout.txt"⟩
    ⟨"/work/stderr.txt"⟩).1.mpr
    (Or.inr (Or.inr (Or.inr
      ⟨1, ⟨false, .declared 2, 2, 0⟩, rfl, by decide, rfl, rfl, rfl, rfl⟩)))

end Kyua
